import Mathlib

/-!
Verification of the POTATO BLE-power-to-gamepad bridge (`src/potato.py`).

The Python module reads cycling-power notifications, decodes a signed
16-bit power sample, maps it through a tanh curve and forwards a trigger
byte to a virtual Xbox 360 controller; arrow and auxiliary keys are bound
to gamepad buttons.  Floating-point arithmetic is idealised over `ℝ`;
Python integers are `ℤ`/`ℕ`; raw notification packets are `List ℕ` of
byte values.
-/

open Real

/-- Embedding of `parse_cycling_power` (potato.py lines 30-40): if the
packet is shorter than 4 bytes return 0, otherwise decode bytes 2..3 as a
signed little-endian 16-bit integer (`int.from_bytes(data[2:4], 'little',
signed=True)`). -/
def parse_cycling_power (data : List ℕ) : ℤ :=
  if data.length < 4 then 0
  else
    let u := data.getD 2 0 + 256 * data.getD 3 0
    if u < 32768 then (u : ℤ) else (u : ℤ) - 65536

/-- Embedding of Python `math.atanh`: the real inverse hyperbolic tangent,
`atanh x = log ((1 + x) / (1 - x)) / 2`. -/
noncomputable def atanh (x : ℝ) : ℝ :=
  Real.log ((1 + x) / (1 - x)) / 2

/-- Embedding of the power-to-ratio mapping inlined in
`KickrController.handle_power_notify` (potato.py lines 106-112): below the
threshold the trigger is 0.0, otherwise `tanh(atanh(0.75) / ftp * power)`.
The spec calls this component `SignalMapper`. -/
noncomputable def signalMapper (ftp threshold p : ℝ) : ℝ :=
  if p < threshold then 0 else Real.tanh (atanh 0.75 / ftp * p)

/-- Embedding of Python `int()` applied to a float: truncation toward
zero. -/
noncomputable def pyInt (x : ℝ) : ℤ :=
  if 0 ≤ x then ⌊x⌋ else ⌈x⌉

/-- Embedding of `trigger_value = int(self.trigger * 255)` (potato.py
line 115). -/
noncomputable def trigger_byte (ratio : ℝ) : ℤ :=
  pyInt (ratio * 255)

/- ### Helper lemmas about `tanh` and `atanh` -/

/-- Exponential form of the real hyperbolic tangent. -/
lemma tanh_exp_form (x : ℝ) :
    Real.tanh x = (Real.exp (2 * x) - 1) / (Real.exp (2 * x) + 1) := by
  have h2 : Real.exp (2 * x) = Real.exp x * Real.exp x := by
    rw [two_mul, Real.exp_add]
  have hx : (0 : ℝ) < Real.exp x := Real.exp_pos x
  rw [Real.tanh_eq_sinh_div_cosh, Real.sinh_eq, Real.cosh_eq, Real.exp_neg, h2]
  have hne : Real.exp x ≠ 0 := ne_of_gt hx
  have hden : Real.exp x * Real.exp x + 1 ≠ 0 := by positivity
  field_simp

lemma exp_two_mul_pos (x : ℝ) : (0 : ℝ) < Real.exp (2 * x) + 1 := by
  have := Real.exp_pos (2 * x)
  linarith

/-- `tanh x < 1` for every real `x`. -/
lemma tanh_lt_one (x : ℝ) : Real.tanh x < 1 := by
  rw [tanh_exp_form]
  rw [div_lt_one (exp_two_mul_pos x)]
  linarith

/-- `tanh` is nonnegative on nonnegative inputs. -/
lemma tanh_nonneg {x : ℝ} (hx : 0 ≤ x) : 0 ≤ Real.tanh x := by
  rw [tanh_exp_form]
  have h1 : (1 : ℝ) ≤ Real.exp (2 * x) := by
    have : (0 : ℝ) ≤ 2 * x := by linarith
    calc (1 : ℝ) = Real.exp 0 := (Real.exp_zero).symm
    _ ≤ Real.exp (2 * x) := Real.exp_le_exp.mpr this
  have h2 := exp_two_mul_pos x
  apply div_nonneg <;> linarith

/-- `tanh` is strictly negative on negative inputs. -/
lemma tanh_neg_of_neg {x : ℝ} (hx : x < 0) : Real.tanh x < 0 := by
  rw [tanh_exp_form]
  have h1 : Real.exp (2 * x) < 1 := by
    have h0 : 2 * x < 0 := by linarith
    calc Real.exp (2 * x) < Real.exp 0 := Real.exp_lt_exp.mpr h0
    _ = 1 := Real.exp_zero
  have h2 := exp_two_mul_pos x
  apply div_neg_of_neg_of_pos <;> linarith

/-- `tanh` is monotone. -/
lemma tanh_mono {x y : ℝ} (h : x ≤ y) : Real.tanh x ≤ Real.tanh y := by
  rw [tanh_exp_form, tanh_exp_form]
  have hx := exp_two_mul_pos x
  have hy := exp_two_mul_pos y
  have hxy : Real.exp (2 * x) ≤ Real.exp (2 * y) :=
    Real.exp_le_exp.mpr (by linarith)
  rw [div_le_div_iff₀ hx hy]
  nlinarith

/-- Lower bounds on `tanh` transfer to lower bounds on `exp (2x)`. -/
lemma le_tanh_iff {q : ℝ} (x : ℝ) (hq : q < 1) :
    q ≤ Real.tanh x ↔ (1 + q) / (1 - q) ≤ Real.exp (2 * x) := by
  rw [tanh_exp_form]
  have hA := exp_two_mul_pos x
  have h1q : (0 : ℝ) < 1 - q := by linarith
  rw [le_div_iff₀ hA, div_le_iff₀ h1q]
  constructor <;> intro h <;> nlinarith

/-- Upper bounds on `tanh` transfer to upper bounds on `exp (2x)`. -/
lemma tanh_lt_iff {q : ℝ} (x : ℝ) (hq : q < 1) :
    Real.tanh x < q ↔ Real.exp (2 * x) < (1 + q) / (1 - q) := by
  rw [tanh_exp_form]
  have hA := exp_two_mul_pos x
  have h1q : (0 : ℝ) < 1 - q := by linarith
  rw [div_lt_iff₀ hA, lt_div_iff₀ h1q]
  constructor <;> intro h <;> nlinarith

/-- `tanh` inverts `atanh` on `(-1, 1)`. -/
lemma tanh_atanh {q : ℝ} (h1 : -1 < q) (h2 : q < 1) :
    Real.tanh (atanh q) = q := by
  have hpos : (0 : ℝ) < (1 + q) / (1 - q) := by
    apply div_pos <;> linarith
  have hexp : Real.exp (2 * atanh q) = (1 + q) / (1 - q) := by
    rw [atanh]
    rw [show 2 * (Real.log ((1 + q) / (1 - q)) / 2) =
        Real.log ((1 + q) / (1 - q)) by ring]
    exact Real.exp_log hpos
  rw [tanh_exp_form, hexp]
  have h1q : (1 : ℝ) - q ≠ 0 := by intro h; nlinarith
  field_simp
  ring

/-- `atanh` is positive on `(0, 1)`. -/
lemma atanh_pos {q : ℝ} (h1 : 0 < q) (h2 : q < 1) : 0 < atanh q := by
  rw [atanh]
  have : (1 : ℝ) < (1 + q) / (1 - q) := by
    rw [lt_div_iff₀ (by linarith : (0:ℝ) < 1 - q)]
    linarith
  have := Real.log_pos this
  linarith

/-- `atanh 0.75` written through `log 7`. -/
lemma atanh_three_quarters : atanh 0.75 = Real.log 7 / 2 := by
  rw [atanh]
  norm_num

/- ### Gamepad, keyboard and event model -/

/-- The gamepad button identifiers used by potato.py (a subset of
vgamepad's `XUSB_BUTTON`). -/
inductive XUSB_BUTTON where
  | DPAD_LEFT
  | DPAD_RIGHT
  | A
  | B
  | X
  | Y
  | RIGHT_SHOULDER
  | LEFT_SHOULDER
deriving DecidableEq

/-- Snapshot of the virtual controller report held by vgamepad: the right
trigger byte and the set of currently pressed buttons. -/
structure PadState where
  rightTrigger : ℤ
  buttons : Finset XUSB_BUTTON
deriving DecidableEq

/-- The mutable fields of `KickrController` relevant to notifications,
together with its configuration and its gamepad. -/
structure Controller where
  ftp : ℝ
  threshold : ℝ
  power : ℤ
  trigger : ℝ
  pad : PadState

/-- Embedding of the `key_map` table of `setup_keyboard_mapping`
(potato.py lines 147-157). -/
def key_map : List (String × XUSB_BUTTON) :=
  [("left", XUSB_BUTTON.DPAD_LEFT),
   ("right", XUSB_BUTTON.DPAD_RIGHT),
   ("home", XUSB_BUTTON.A),
   ("shift", XUSB_BUTTON.B),
   ("enter", XUSB_BUTTON.X),
   ("end", XUSB_BUTTON.Y),
   ("=", XUSB_BUTTON.RIGHT_SHOULDER),
   ("subtract", XUSB_BUTTON.LEFT_SHOULDER)]

/-- The three kinds of events that mutate the device state: a BLE power
notification, and the press/release keyboard edges for which
`setup_keyboard_mapping` registers handlers (one per bound key). -/
inductive Event where
  | notify (data : List ℕ)
  | keyDown (b : XUSB_BUTTON)
  | keyUp (b : XUSB_BUTTON)

/-- Embedding of the three event handlers of potato.py:
`handle_power_notify` (lines 96-122) and the press/release closures of
`setup_keyboard_mapping` (lines 159-167).  The second component lists the
snapshots forwarded by each `gamepad.update()` call, in order. -/
noncomputable def handleEvent (c : Controller) : Event → Controller × List PadState
  | Event.notify data =>
      let power := parse_cycling_power data
      let trigger := signalMapper c.ftp c.threshold (power : ℝ)
      let pad : PadState := ⟨trigger_byte trigger, c.pad.buttons⟩
      ({ c with power := power, trigger := trigger, pad := pad }, [pad])
  | Event.keyDown b =>
      let pad : PadState := ⟨c.pad.rightTrigger, insert b c.pad.buttons⟩
      ({ c with pad := pad }, [pad])
  | Event.keyUp b =>
      let pad : PadState := ⟨c.pad.rightTrigger, c.pad.buttons.erase b⟩
      ({ c with pad := pad }, [pad])

/- ### Startup (`main`) model -/

/-- The command-line configuration accepted by `main` (potato.py lines
220-231); argparse imposes no constraint beyond the types. -/
structure Args where
  ftp : ℝ
  deviceName : String
  threshold : ℝ
  disableDpad : Bool
  gui : Bool

/-- The externally visible startup actions of `main`. -/
inductive MainAction where
  | setupGUI
  | startBLELoop
  | createController
  | bindKeys
  | scheduleRun
  | runGUI
  | waitKeyboard
deriving DecidableEq

/-- Embedding of the statement sequence of `main` (potato.py lines
216-258): no configuration validation is performed, the controller is
always created, keys are bound unless `--disable-dpad`, and the BLE
session is always scheduled. -/
def main_actions (args : Args) : List MainAction :=
  (if args.gui then [MainAction.setupGUI] else []) ++
  [MainAction.startBLELoop, MainAction.createController] ++
  (if args.disableDpad then [] else [MainAction.bindKeys]) ++
  [MainAction.scheduleRun] ++
  (if args.gui then [MainAction.runGUI] else [MainAction.waitKeyboard])

/- ### Session lifecycle (`run`) model -/

/-- Observable outcome of one invocation of `KickrController.run`,
parameterised by the environment: how many scans, connect attempts and
subscribe attempts were made, and whether the coroutine blocks forever or
raises. -/
structure RunResult where
  scans : ℕ
  connectAttempts : ℕ
  subscribeAttempts : ℕ
  blocks : Bool
  raises : Bool
deriving DecidableEq

/-- Embedding of `KickrController.connect` (potato.py lines 65-94): one
scan; on scan timeout or no matching device, failure without raising;
otherwise one transport connect attempt whose exception is caught. -/
def connect_result (scanOk found connOk : Bool) : Bool :=
  scanOk && found && connOk

/-- Embedding of `KickrController.run` (lines 134-142) together with
`start_notifications` (lines 124-132): if `connect` fails, return; else
call `start_notify` once — its exception is caught and only logged — and
then sleep in an infinite loop.  `notifyOk` does not influence control
flow, exactly as in the source. -/
def run_exec (scanOk found connOk notifyOk : Bool) : RunResult :=
  if connect_result scanOk found connOk then
    { scans := 1
      connectAttempts := 1
      subscribeAttempts := 1
      blocks := true
      raises := false }
  else
    { scans := 1
      connectAttempts := if scanOk && found then 1 else 0
      subscribeAttempts := 0
      blocks := false
      raises := false }

/- ### Numeric bounds for the 300 W / FTP 230 scenario -/

/-- Lower bound on the exponential governing `tanh(atanh(0.75)/230·300)`:
`exp(log 7 · (30/23)) = 7^(30/23) ≥ 63/5`. -/
lemma exp_log7_lower : (63 : ℝ) / 5 ≤ Real.exp (Real.log 7 * (30 / 23)) := by
  have hlog : Real.log ((63 : ℝ) / 5) ≤ Real.log 7 * (30 / 23) := by
    have hpow : ((63 : ℝ) / 5) ^ (23 : ℕ) ≤ (7 : ℝ) ^ (30 : ℕ) := by
      rw [div_pow, div_le_iff₀ (by positivity)]
      norm_num
    have hl := (Real.log_le_log_iff (by positivity) (by positivity)).mpr hpow
    rw [Real.log_pow, Real.log_pow] at hl
    push_cast at hl
    linarith
  calc (63 : ℝ) / 5 = Real.exp (Real.log ((63 : ℝ) / 5)) :=
        (Real.exp_log (by norm_num)).symm
  _ ≤ Real.exp (Real.log 7 * (30 / 23)) := Real.exp_le_exp.mpr hlog

/-- Upper bound: `7^(30/23) < 473/37`. -/
lemma exp_log7_upper : Real.exp (Real.log 7 * (30 / 23)) < (473 : ℝ) / 37 := by
  have hlog : Real.log 7 * (30 / 23) < Real.log ((473 : ℝ) / 37) := by
    have hpow : (7 : ℝ) ^ (30 : ℕ) < ((473 : ℝ) / 37) ^ (23 : ℕ) := by
      rw [div_pow, lt_div_iff₀ (by positivity)]
      norm_num
    have hl := (Real.log_lt_log_iff (by positivity) (by positivity)).mpr hpow
    rw [Real.log_pow, Real.log_pow] at hl
    push_cast at hl
    linarith
  calc Real.exp (Real.log 7 * (30 / 23)) < Real.exp (Real.log ((473 : ℝ) / 37)) :=
        Real.exp_lt_exp.mpr hlog
  _ = (473 : ℝ) / 37 := Real.exp_log (by norm_num)

/-- Two-sided bounds on the committed ratio for a 300 W sample with
FTP 230 and threshold 0: `29/34 ≤ ratio < 218/255`
(numerically `0.85294 ≤ ratio < 0.85490`; the true value is ≈ 0.85340). -/
lemma ratio_300_bounds :
    (29 : ℝ) / 34 ≤ signalMapper 230 0 300 ∧
      signalMapper 230 0 300 < (218 : ℝ) / 255 := by
  have harg : atanh 0.75 / 230 * 300 = Real.log 7 * (30 / 23) / 2 := by
    rw [atanh_three_quarters]; ring
  have h2 : 2 * (atanh 0.75 / 230 * 300) = Real.log 7 * (30 / 23) := by
    rw [harg]; ring
  have hmap : signalMapper 230 0 300 = Real.tanh (atanh 0.75 / 230 * 300) := by
    rw [signalMapper, if_neg (by norm_num)]
  constructor
  · rw [hmap, le_tanh_iff _ (by norm_num), h2]
    have := exp_log7_lower
    rw [show (1 + (29 : ℝ) / 34) / (1 - 29 / 34) = 63 / 5 by norm_num]
    linarith
  · rw [hmap, tanh_lt_iff _ (by norm_num), h2]
    have := exp_log7_upper
    rw [show (1 + (218 : ℝ) / 255) / (1 - 218 / 255) = 473 / 37 by norm_num]
    linarith

/- ### Claim theorems -/

/-- C1: for every positive configured FTP `F`, with minimum threshold 0,
the power-to-ratio mapping applied at `p = F` yields exactly 0.75 (hence
certainly ≈ 0.75 within floating-point tolerance), because the scale is
`atanh(0.75)/F` and `tanh(atanh(0.75)/F · F) = 0.75`. -/
theorem C1_calibration_point (F : ℝ) (hF : 0 < F) :
    signalMapper F 0 F = 0.75 := by
  rw [signalMapper, if_neg (not_lt.mpr hF.le)]
  rw [div_mul_cancel₀ (atanh 0.75) (ne_of_gt hF)]
  exact tanh_atanh (by norm_num) (by norm_num)

/-- Witness for C1 at the default FTP of 230. -/
theorem C1_calibration_point_witness :
    (0 : ℝ) < 230 ∧ signalMapper 230 0 230 = 0.75 :=
  ⟨by norm_num, C1_calibration_point 230 (by norm_num)⟩

/-- C2: `parse_cycling_power` is total (it is a Lean `def`, so it can
never raise); packets shorter than 4 bytes yield 0, and otherwise the
result is the signed little-endian 16-bit integer formed by bytes 2 and 3:
the unique integer in `[-2^15, 2^15)` congruent to `lo + 256·hi`
modulo `2^16`. -/
theorem C2_parse_characterisation (data : List ℕ)
    (hbytes : ∀ b ∈ data, b < 256) :
    (data.length < 4 → parse_cycling_power data = 0) ∧
    (4 ≤ data.length →
      -32768 ≤ parse_cycling_power data ∧
      parse_cycling_power data < 32768 ∧
      parse_cycling_power data % 65536 =
        ((data.getD 2 0 + 256 * data.getD 3 0 : ℕ) : ℤ) % 65536) := by
  constructor
  · intro h
    rw [parse_cycling_power, if_pos h]
  · intro h
    have hlen : ¬ data.length < 4 := not_lt.mpr h
    have h2 : 2 < data.length := by omega
    have h3 : 3 < data.length := by omega
    have hlo : data.getD 2 0 < 256 := by
      rw [List.getD_eq_getElem data 0 h2]
      exact hbytes _ (List.getElem_mem h2)
    have hhi : data.getD 3 0 < 256 := by
      rw [List.getD_eq_getElem data 0 h3]
      exact hbytes _ (List.getElem_mem h3)
    have hrw : parse_cycling_power data =
        if data.getD 2 0 + 256 * data.getD 3 0 < 32768
        then ((data.getD 2 0 + 256 * data.getD 3 0 : ℕ) : ℤ)
        else ((data.getD 2 0 + 256 * data.getD 3 0 : ℕ) : ℤ) - 65536 := by
      rw [parse_cycling_power, if_neg hlen]
    rw [hrw]
    split_ifs with hc <;>
      refine ⟨by omega, by omega, ?_⟩
    · rfl
    · omega

/-- Witness for C2 on the 4-byte packet `[0x00, 0x00, 0x2C, 0x01]`. -/
theorem C2_parse_characterisation_witness :
    4 ≤ ([0, 0, 44, 1] : List ℕ).length ∧
    -32768 ≤ parse_cycling_power [0, 0, 44, 1] ∧
    parse_cycling_power [0, 0, 44, 1] < 32768 ∧
    parse_cycling_power [0, 0, 44, 1] % 65536 =
      ((([0, 0, 44, 1] : List ℕ).getD 2 0 +
        256 * ([0, 0, 44, 1] : List ℕ).getD 3 0 : ℕ) : ℤ) % 65536 :=
  ⟨by decide, (C2_parse_characterisation [0, 0, 44, 1] (by decide)).2 (by decide)⟩

/-- C5: whenever the power sample is below the configured threshold the
computed trigger ratio is exactly 0, for any FTP. -/
theorem C5_zero_below_threshold (F T p : ℝ) (h : p < T) :
    signalMapper F T p = 0 := by
  rw [signalMapper, if_pos h]

/-- Witness for C5: threshold 50, sample 30 (the spec's scenario). -/
theorem C5_zero_below_threshold_witness :
    (30 : ℝ) < 50 ∧ signalMapper 230 50 30 = 0 :=
  ⟨by norm_num, C5_zero_below_threshold 230 50 30 (by norm_num)⟩

/-- C6 fails as stated: with a negative configured threshold (which the
configuration surface accepts) the mapping is not monotone — at
`F = 1, T = -1` the sample `-2` is below threshold and maps to 0, while
the larger sample `-1` maps to `tanh(-atanh 0.75) = -0.75 < 0`. -/
theorem C6_counterexample :
    ¬ (∀ F T : ℝ, 0 < F → ∀ p₁ p₂ : ℝ, p₁ ≤ p₂ →
        signalMapper F T p₁ ≤ signalMapper F T p₂) := by
  intro h
  have h1 := h 1 (-1) (by norm_num) (-2) (-1) (by norm_num)
  have e1 : signalMapper 1 (-1) (-2) = 0 := by
    rw [signalMapper, if_pos (by norm_num)]
  have e2 : signalMapper 1 (-1) (-1) < 0 := by
    rw [signalMapper, if_neg (by norm_num)]
    apply tanh_neg_of_neg
    have hpos : 0 < atanh 0.75 := atanh_pos (by norm_num) (by norm_num)
    have harg : atanh 0.75 / 1 * (-1) = -(atanh 0.75) := by ring
    rw [harg]
    linarith
  rw [e1] at h1
  linarith

/-- C6 amended: the mapping is monotone non-decreasing in the sample for
every configuration with `F > 0` and a non-negative threshold `T ≥ 0`
(the counterexample above forces the extra condition on `T`). -/
theorem C6_monotone_of_nonneg_threshold (F T : ℝ) (hF : 0 < F) (hT : 0 ≤ T)
    (p₁ p₂ : ℝ) (hp : p₁ ≤ p₂) :
    signalMapper F T p₁ ≤ signalMapper F T p₂ := by
  have hpos : 0 < atanh 0.75 := atanh_pos (by norm_num) (by norm_num)
  have hk : 0 ≤ atanh 0.75 / F := div_nonneg hpos.le hF.le
  rw [signalMapper, signalMapper]
  split_ifs with h1 h2
  · exact le_refl 0
  · exact tanh_nonneg (mul_nonneg hk (le_trans hT (not_lt.mp h2)))
  · exact absurd (lt_of_le_of_lt hp ‹p₂ < T›) h1
  · exact tanh_mono (mul_le_mul_of_nonneg_left hp hk)

/-- Witness for the amended C6 at `F = 230, T = 0, 100 ≤ 200`. -/
theorem C6_monotone_of_nonneg_threshold_witness :
    (0 : ℝ) < 230 ∧ (0 : ℝ) ≤ 0 ∧ (100 : ℝ) ≤ 200 ∧
      signalMapper 230 0 100 ≤ signalMapper 230 0 200 :=
  ⟨by norm_num, le_refl 0, by norm_num,
    C6_monotone_of_nonneg_threshold 230 0 (by norm_num) (le_refl 0)
      100 200 (by norm_num)⟩

/-- C9: every mutation of the device state — a power notification or a
button press/release edge — performs exactly one `gamepad.update()`
forward call, and the snapshot it carries is the full resulting pad
state. -/
theorem C9_one_update_per_mutation (c : Controller) (e : Event) :
    (handleEvent c e).2 = [(handleEvent c e).1.pad] := by
  cases e <;> rfl

/-- C7 fails on the code: `main` performs no validation of the
functional-threshold-power.  With `--ftp 0` (and defaults otherwise) it
still binds the keyboard keys and schedules the BLE session; the
degenerate scale `atanh(0.75)/0` is only hit later, inside the
notification callback. -/
theorem C7_no_startup_rejection :
    main_actions ⟨0, "KICKR", 0, false, false⟩ =
      [MainAction.startBLELoop, MainAction.createController,
       MainAction.bindKeys, MainAction.scheduleRun,
       MainAction.waitKeyboard] ∧
    MainAction.bindKeys ∈ main_actions ⟨0, "KICKR", 0, false, false⟩ ∧
    MainAction.scheduleRun ∈ main_actions ⟨0, "KICKR", 0, false, false⟩ := by
  refine ⟨?_, ?_, ?_⟩ <;> simp [main_actions]

/-- C8 fails as stated: `run()` blocks even when starting notifications
fails, because `start_notifications` swallows the exception.  Formally it
is false that blocking implies every step (scan, device found, connect,
subscribe) succeeded. -/
theorem C8_counterexample :
    ¬ (∀ scanOk found connOk notifyOk : Bool,
        (run_exec scanOk found connOk notifyOk).blocks = true →
        (scanOk && found && connOk && notifyOk) = true) := by
  intro h
  have := h true true true false rfl
  simp at this

/-- C8 amended: `run()` attempts scan, connect and subscribe at most once
each and never raises; it returns early exactly when the scan/connect
phase fails, and blocks for the process lifetime whenever scan, discovery
and connect succeed — regardless of whether starting notifications
succeeded. -/
theorem C8_run_behaviour (scanOk found connOk notifyOk : Bool) :
    (run_exec scanOk found connOk notifyOk).raises = false ∧
    (run_exec scanOk found connOk notifyOk).scans = 1 ∧
    (run_exec scanOk found connOk notifyOk).connectAttempts ≤ 1 ∧
    (run_exec scanOk found connOk notifyOk).subscribeAttempts ≤ 1 ∧
    (run_exec scanOk found connOk notifyOk).blocks =
      (scanOk && found && connOk) := by
  cases scanOk <;> cases found <;> cases connOk <;> cases notifyOk <;>
    simp [run_exec, connect_result]

/- ### The 300 W / FTP 230 / threshold 0 scenario -/

/-- The trigger byte committed for the 300 W sample is 217 (truncation of
`ratio·255 ∈ [217.5, 218)`). -/
lemma byte_300 : trigger_byte (signalMapper 230 0 300) = 217 := by
  obtain ⟨hlo, hhi⟩ := ratio_300_bounds
  have h0 : (0 : ℝ) ≤ signalMapper 230 0 300 * 255 := by nlinarith
  rw [trigger_byte, pyInt, if_pos h0]
  rw [Int.floor_eq_iff]
  constructor
  · push_cast
    nlinarith
  · push_cast
    nlinarith

/-- `round(ratio·255) = 218` for the 300 W sample. -/
lemma round_300 : round (signalMapper 230 0 300 * 255) = 218 := by
  obtain ⟨hlo, hhi⟩ := ratio_300_bounds
  rw [round_eq, Int.floor_eq_iff]
  constructor
  · push_cast
    nlinarith
  · push_cast
    nlinarith

/-- C3 fails on the code: the committed ratio produced by the 300 W
sample under the default configuration is forwarded as
`int(ratio·255) = 217`, while `round(ratio·255) = 218` — the code
truncates instead of rounding. -/
theorem C3_counterexample :
    trigger_byte (signalMapper 230 0 300) ≠
      round (signalMapper 230 0 300 * 255) := by
  rw [byte_300, round_300]
  decide

/-- C3 amended: the forwarded trigger byte is obtained by truncation
toward zero, which on every non-negative committed ratio is
`⌊ratio·255⌋` — not `round(ratio·255)`. -/
theorem C3_trigger_truncation (F T p : ℝ)
    (h : 0 ≤ signalMapper F T p) :
    trigger_byte (signalMapper F T p) = ⌊signalMapper F T p * 255⌋ := by
  rw [trigger_byte, pyInt, if_pos (mul_nonneg h (by norm_num))]

/-- Witness for the amended C3 at the committed 300 W ratio. -/
theorem C3_trigger_truncation_witness :
    trigger_byte (signalMapper 230 0 300) = ⌊signalMapper 230 0 300 * 255⌋ :=
  C3_trigger_truncation 230 0 300
    (le_trans (by norm_num) ratio_300_bounds.1)

/-- C4 fails as stated: the packet `[0x00, 0x00, 0x2C, 0x01]` does parse
to 300 W, but with `F = 230, T = 0` the resulting ratio exceeds 0.85
(so it is not ≈ 0.839) and the forwarded byte is 217, not 214. -/
theorem C4_counterexample :
    parse_cycling_power [0x00, 0x00, 0x2C, 0x01] = 300 ∧
    ((parse_cycling_power [0x00, 0x00, 0x2C, 0x01] : ℤ) : ℝ) = 300 ∧
    0.85 < signalMapper 230 0 300 ∧
    trigger_byte (signalMapper 230 0 300) ≠ 214 := by
  refine ⟨by decide, ?_, ?_, ?_⟩
  · norm_num [parse_cycling_power]
  · have := ratio_300_bounds.1
    nlinarith
  · rw [byte_300]
    decide

/-- C4 amended: packet `[0x00, 0x00, 0x2C, 0x01]` parses to 300 W; with
`F = 230, T = 0` the ratio `tanh(atanh(0.75)/230·300)` lies in
`[29/34, 218/255)` (≈ 0.853, not 0.839) and the forwarded trigger byte
is 217, not 214. -/
theorem C4_scenario_corrected :
    parse_cycling_power [0x00, 0x00, 0x2C, 0x01] = 300 ∧
    (29 : ℝ) / 34 ≤ signalMapper 230 0 300 ∧
    signalMapper 230 0 300 < (218 : ℝ) / 255 ∧
    trigger_byte (signalMapper 230 0 300) = 217 :=
  ⟨by decide, ratio_300_bounds.1, ratio_300_bounds.2, byte_300⟩

/-- C10: for every notification, under a configuration with positive FTP
and non-negative threshold, the committed ratio is non-negative and below
1, and the byte `int(trigger * 255)` handed to the virtual gamepad lies
in `[0, 255]`. -/
theorem C10_byte_in_range (F T : ℝ) (data : List ℕ)
    (hF : 0 < F) (hT : 0 ≤ T) :
    0 ≤ signalMapper F T ((parse_cycling_power data : ℤ) : ℝ) ∧
    signalMapper F T ((parse_cycling_power data : ℤ) : ℝ) < 1 ∧
    0 ≤ trigger_byte (signalMapper F T ((parse_cycling_power data : ℤ) : ℝ)) ∧
    trigger_byte (signalMapper F T ((parse_cycling_power data : ℤ) : ℝ)) ≤ 255 := by
  set p : ℝ := ((parse_cycling_power data : ℤ) : ℝ)
  have hpos : 0 < atanh 0.75 := atanh_pos (by norm_num) (by norm_num)
  have hr0 : 0 ≤ signalMapper F T p := by
    rw [signalMapper]
    split_ifs with h
    · exact le_refl 0
    · exact tanh_nonneg
        (mul_nonneg (div_nonneg hpos.le hF.le) (le_trans hT (not_lt.mp h)))
  have hr1 : signalMapper F T p < 1 := by
    rw [signalMapper]
    split_ifs with h
    · norm_num
    · exact tanh_lt_one _
  refine ⟨hr0, hr1, ?_, ?_⟩
  · rw [trigger_byte, pyInt, if_pos (mul_nonneg hr0 (by norm_num))]
    exact Int.floor_nonneg.mpr (mul_nonneg hr0 (by norm_num))
  · rw [trigger_byte, pyInt, if_pos (mul_nonneg hr0 (by norm_num))]
    have hlt : ⌊signalMapper F T p * 255⌋ < 255 := by
      rw [Int.floor_lt]
      push_cast
      nlinarith
    omega

/-- Witness for C10 on the 300 W packet with the default configuration. -/
theorem C10_byte_in_range_witness :
    0 ≤ signalMapper 230 0 ((parse_cycling_power [0, 0, 44, 1] : ℤ) : ℝ) ∧
    signalMapper 230 0 ((parse_cycling_power [0, 0, 44, 1] : ℤ) : ℝ) < 1 ∧
    0 ≤ trigger_byte
        (signalMapper 230 0 ((parse_cycling_power [0, 0, 44, 1] : ℤ) : ℝ)) ∧
    trigger_byte
        (signalMapper 230 0 ((parse_cycling_power [0, 0, 44, 1] : ℤ) : ℝ)) ≤ 255 :=
  C10_byte_in_range 230 0 [0, 0, 44, 1] (by norm_num) (le_refl 0)
